import Mathlib

/-!
Verification development for the FP5529 camera-lens VCM actuator driver
(`is-actuator-fp5529.c`).  The driver is embedded shallowly: the two-wire
bus is modelled by an oracle giving the result of the n-th read and the
success of the n-th write, and every driver operation is a state-passing
function over a simulation state that records the sequence of bus
transactions and sleeps together with the mutable per-device record
(`actuator->position`).  Return codes follow the C convention: `0` for
success, a negative value for an error (`-22` stands for `-EINVAL`,
`-5` for a transport-level error).
-/

/-- Observable actions of the driver: single-register writes, the packed
two-register write (`addr_data_write16`), register reads, and the two
kinds of delay (`usleep_range` in microseconds, `msleep` in
milliseconds). -/
inductive Event where
  | write8 (addr val : Nat)
  | write16 (addr high low : Nat)
  | read8 (addr : Nat)
  | sleepUs (us : Nat)
  | msleep (ms : Nat)
  deriving DecidableEq, Repr

/-- Bus mock: `readRes n` is the byte returned by the n-th register read
(`none` models a transport failure), `writeRes n` tells whether the n-th
register write succeeds. -/
structure BusOracle where
  readRes : Nat → Option Nat
  writeRes : Nat → Bool

/-- The mutable per-device record of the driver that the claims are
about: `actuator->position`. -/
structure DevState where
  position : Nat
  deriving DecidableEq, Repr

/-- Simulation state: the bus oracle, how many reads and writes happened
so far, the trace of observable actions, and the device record. -/
structure Sim where
  oracle : BusOracle
  nReads : Nat
  nWrites : Nat
  trace : List Event
  dev : DevState

/-- A fresh simulation state over a given bus oracle, with
`actuator->position = 0` as set at probe time. -/
def mkSim (o : BusOracle) : Sim :=
  { oracle := o, nReads := 0, nWrites := 0, trace := [], dev := { position := 0 } }

/-- Model of `ixc_ops->addr8_write8`: the value lands in a `u8`, hence
the truncation to a byte; success of the transaction is decided by the
oracle. -/
def ixc_write8 (addr val : Nat) (s : Sim) : Int × Sim :=
  ((if s.oracle.writeRes s.nWrites = true then 0 else -5),
   { s with nWrites := s.nWrites + 1, trace := s.trace ++ [Event.write8 addr (val % 256)] })

/-- Model of `ixc_ops->addr_data_write16` (packed two-register write).
Its only caller passes byte-sized values, so no truncation is applied. -/
def ixc_write16 (addr high low : Nat) (s : Sim) : Int × Sim :=
  ((if s.oracle.writeRes s.nWrites = true then 0 else -5),
   { s with nWrites := s.nWrites + 1, trace := s.trace ++ [Event.write16 addr high low] })

/-- Model of `ixc_ops->addr8_read8`: the oracle provides the byte read
back, or `none` on a transport failure. -/
def ixc_read8 (addr : Nat) (s : Sim) : Option Nat × Sim :=
  (s.oracle.readRes s.nReads,
   { s with nReads := s.nReads + 1, trace := s.trace ++ [Event.read8 addr] })

/-- Model of `msleep`. -/
def sim_msleep (ms : Nat) (s : Sim) : Sim :=
  { s with trace := s.trace ++ [Event.msleep ms] }

/-- Model of `usleep_range(us, us)`. -/
def sim_usleep (us : Nat) (s : Sim) : Sim :=
  { s with trace := s.trace ++ [Event.sleepUs us] }

/-- Register map of the FP5529 (from the defines in the source). -/
def REG_CONTROL : Nat := 0x02

/-- Position high register, bits `[1:0]` are `Pos[9:8]`. -/
def REG_VCM_MSB : Nat := 0x03

/-- Position low register, `Pos[7:0]`. -/
def REG_VCM_LSB : Nat := 0x04

/-- Status register, `[1]` eFlash busy, `[0]` VCM busy. -/
def REG_STATUS : Nat := 0x05

/-- Acceleration mode register, `[7:5]` mode, `[2:0]` prescale. -/
def REG_ACC_MODE : Nat := 0x06

/-- Acceleration time register. -/
def REG_ACC_TIME : Nat := 0x07

/-- Landing-current preset register. -/
def REG_PRESET : Nat := 0x0A

/-- Soft-landing enable register. -/
def REG_LAD_EN : Nat := 0x0B

/-- Default first position of the fallback init sequence. -/
def DEF_FP5529_FIRST_POSITION : Nat := 100

/-- Default second position of the fallback init sequence. -/
def DEF_FP5529_SECOND_POSITION : Nat := 180

/-- Default first delay (ms) of the fallback init sequence. -/
def DEF_FP5529_FIRST_DELAY : Nat := 20

/-- Default second delay (ms) of the fallback init sequence. -/
def DEF_FP5529_SECOND_DELAY : Nat := 10

/-- Modelled from the spec: `FP5529_POS_MAX_SIZE` is defined in the
header `is-actuator-fp5529.h`, which is not part of the sources; the
spec describes the device as a 10-bit VCM with maximum position 1023,
matching the 10-bit packing `(val & 0x300) >> 8` / `val & 0xFF` in the
source. -/
def FP5529_POS_MAX_SIZE : Nat := 1023

/-- Modelled from the spec: `PWR_ON_DELAY` comes from the missing header
`is-actuator-fp5529.h`; the spec mandates a fixed 5 ms power-on settle
delay, and the source comment at the `usleep_range` call says
"wait 5ms after power-on". -/
def PWR_ON_DELAY : Nat := 5000

/-- Modelled from the spec: the status constants come from a framework
header that is not part of the sources; the spec's `BusyStatus` is an
enum `{Busy, NotBusy}` and only the distinctness of the two values
matters to the driver logic. -/
def ACTUATOR_STATUS_NO_BUSY : Nat := 0

/-- Modelled from the spec: counterpart of `ACTUATOR_STATUS_NO_BUSY`. -/
def ACTUATOR_STATUS_BUSY : Nat := 1

/-- Modelled from the spec: `HW_SOFTLANDING_FAIL` is a distinguished
nonzero code from a framework header that is not part of the sources;
it encodes the spec's `SoftLandingOutcome::Failure` as distinct from
both success (`0`) and ordinary bus errors. -/
def HW_SOFTLANDING_FAIL : Int := -200

/-- Calibration record `is_caldata_list_fp5529` as consumed by
`sensor_fp5529_init` (fields read into `u32` locals in the source). -/
structure CalData where
  control_mode : Nat
  prescale : Nat
  acctime : Nat

/-- Model of `sensor_fp5529_init`: the register programming sequence,
branching on presence of calibration data.  Each write that fails aborts
immediately (the `goto p_err` chain of the source). -/
def sensor_fp5529_init (cal : Option CalData) (s : Sim) : Int × Sim :=
  match cal with
  | none =>
    let t1 := ixc_write8 REG_CONTROL 0x01 s
    if t1.1 < 0 then t1 else
    let t2 := ixc_write8 REG_CONTROL 0x00 t1.2
    if t2.1 < 0 then t2 else
    let s3 := sim_usleep PWR_ON_DELAY t2.2
    let t4 := ixc_write8 REG_CONTROL (0x01 <<< 1) s3
    if t4.1 < 0 then t4 else
    let t5 := ixc_write8 REG_ACC_MODE 0x01 t4.2
    if t5.1 < 0 then t5 else
    ixc_write8 REG_ACC_TIME 0x36 t5.2
  | some cv =>
    let t1 := ixc_write8 REG_CONTROL 0x01 s
    if t1.1 < 0 then t1 else
    let t2 := ixc_write8 REG_CONTROL 0x00 t1.2
    if t2.1 < 0 then t2 else
    let s3 := sim_usleep PWR_ON_DELAY t2.2
    let t4 := ixc_write8 REG_CONTROL (0x01 <<< 1) s3
    if t4.1 < 0 then t4 else
    let t5 := ixc_write8 REG_ACC_MODE
      (((cv.control_mode &&& 0xff) <<< 5) ||| (cv.prescale &&& 0xff)) t4.2
    if t5.1 < 0 then t5 else
    ixc_write8 REG_ACC_TIME cv.acctime t5.2

/-- Model of `sensor_fp5529_write_position`: reject a target above
`FP5529_POS_MAX_SIZE` with `-EINVAL` before any bus access, otherwise
pack the position into a 2-bit high byte and an 8-bit low byte and issue
one packed write. -/
def sensor_fp5529_write_position (val : Nat) (s : Sim) : Int × Sim :=
  if val > FP5529_POS_MAX_SIZE then (-22, s)
  else
    let val_high := (val &&& 0x300) >>> 8
    let val_low := val &&& 0x00FF
    ixc_write16 REG_VCM_MSB val_high val_low s

/-- C `int` to `u32` conversion (used where the sysfs `int` values flow
into `u32` parameters or fields). -/
def intToU32 (x : Int) : Nat := (x % 4294967296).toNat

/-- The externally owned sysfs/debug state `is_sysfs_actuator`: the
caller-supplied init list (with its step count) and the fixed-position
debug override.  The arrays are modelled as total functions since the C
arrays are larger than the used step count. -/
structure SysfsActuator where
  init_step : Int
  init_positions : Nat → Int
  init_delays : Nat → Int
  enable_fixed : Bool
  fixed_position : Nat

/-- The validity scan of `sensor_fp5529_valid_check`: all positions and
delays of the first `n` entries are non-negative. -/
def entriesValid (sa : SysfsActuator) : Nat → Bool
  | 0 => true
  | k + 1 =>
    entriesValid sa k && decide (0 ≤ sa.init_positions k) && decide (0 ≤ sa.init_delays k)

/-- Model of `sensor_fp5529_valid_check`: returns `init_step` when the
list is non-empty and fully valid, `0` otherwise. -/
def sensor_fp5529_valid_check (sa : SysfsActuator) : Int :=
  if 0 < sa.init_step then
    (if entriesValid sa sa.init_step.toNat = true then sa.init_step else 0)
  else 0

/-- The `for` loop of `sensor_fp5529_init_position`: write each listed
position and sleep the paired delay, aborting on a failed write.  `i` is
the loop index, the second argument the number of remaining steps. -/
def init_pos_loop (sa : SysfsActuator) : Nat → Nat → Sim → Int × Sim
  | _, 0, s => (0, s)
  | i, n + 1, s =>
    let t := sensor_fp5529_write_position (intToU32 (sa.init_positions i)) s
    if t.1 < 0 then t
    else init_pos_loop sa (i + 1) n (sim_msleep (intToU32 (sa.init_delays i)) t.2)

/-- Model of `sensor_fp5529_init_position`.  With a valid caller list it
walks the list; afterwards the source stores
`sysfs_actuator->init_positions[i]` with `i == init_step`, i.e. the
entry one past the last used one.  Without a valid list it performs the
fixed two-step default sequence and stores 180. -/
def sensor_fp5529_init_position (sa : SysfsActuator) (s : Sim) : Int × Sim :=
  let init_step := sensor_fp5529_valid_check sa
  if 0 < init_step then
    let t := init_pos_loop sa 0 init_step.toNat s
    if t.1 < 0 then t
    else (t.1, { t.2 with dev := { t.2.dev with
      position := intToU32 (sa.init_positions init_step.toNat) } })
  else
    let t1 := sensor_fp5529_write_position DEF_FP5529_FIRST_POSITION s
    if t1.1 < 0 then t1 else
    let s2 := sim_msleep DEF_FP5529_FIRST_DELAY t1.2
    let t3 := sensor_fp5529_write_position DEF_FP5529_SECOND_POSITION s2
    if t3.1 < 0 then t3 else
    let s4 := sim_msleep DEF_FP5529_SECOND_DELAY t3.2
    (t3.1, { s4 with dev := { s4.dev with position := DEF_FP5529_SECOND_POSITION } })

/-- Model of `sensor_fp5529_actuator_get_status` as it acts through its
`u32 *info` out-parameter: on a successful read the status byte is
classified (`NotBusy` iff the two low bits are clear); on a failed read
the function returns the error *without touching `*info`*, so the
returned middle component equals the passed-in previous value. -/
def sensor_fp5529_actuator_get_status (info : Nat) (s : Sim) : Int × Nat × Sim :=
  let t := ixc_read8 REG_STATUS s
  if t.1 = none then (-5, info, t.2)
  else
    (0, (if t.1.getD 0 &&& 0x3 = 0 then ACTUATOR_STATUS_NO_BUSY else ACTUATOR_STATUS_BUSY),
     t.2)

/-- The do-while loop of `sensor_fp5529_actuator_wait_busy`.  The first
argument is `15 - count`, the number of loop-body executions still
allowed; `info` is the status variable carried across iterations (the
C variable is not reassigned when a status read fails). -/
def wait_busy_go : Nat → Nat → Sim → Nat × Sim
  | 0, info, s => (info, s)
  | r + 1, info, s =>
    let t := sensor_fp5529_actuator_get_status info s
    let info2 := t.2.1
    let s2 := if info2 = ACTUATOR_STATUS_BUSY then sim_msleep 10 t.2.2 else t.2.2
    if info2 = ACTUATOR_STATUS_BUSY ∧ 1 < r + 1 then wait_busy_go r info2 s2
    else (info2, s2)

/-- Model of `sensor_fp5529_actuator_wait_busy`: sleep 5 ms, poll the
status register up to 15 times with a 10 ms backoff while busy, and
return `0` unconditionally.  `junk` models the indeterminate initial
value of the uninitialised local `u32 info`. -/
def sensor_fp5529_actuator_wait_busy (junk : Nat) (s : Sim) : Int × Sim :=
  let t := wait_busy_go 15 junk (sim_msleep 5 s)
  (0, t.2)

/-- Model of `sensor_fp5529_actuator_soft_landing`: the five-stage
landing sequence, each stage gated by a busy wait, followed by the final
position read-back that decides between success (`0`) and
`HW_SOFTLANDING_FAIL` (which also records the residual position in the
device record). -/
def sensor_fp5529_actuator_soft_landing (junk : Nat) (s : Sim) : Int × Sim :=
  let w1 := sensor_fp5529_actuator_wait_busy junk s
  let t1 := ixc_read8 REG_VCM_MSB w1.2
  if t1.1 = none then (-5, t1.2) else
  let t2 := ixc_read8 REG_VCM_LSB t1.2
  if t2.1 = none then (-5, t2.2) else
  let pos1 := t1.1.getD 0 &&& 0x03
  let position := (pos1 <<< 8) ||| t2.1.getD 0
  let t3 := ixc_write8 REG_PRESET
    (if pos1 &&& 0x02 ≠ 0 then 0xff else position >>> 1) t2.2
  if t3.1 < 0 then t3 else
  let w2 := sensor_fp5529_actuator_wait_busy junk t3.2
  let t4 := ixc_write8 REG_CONTROL 0x02 w2.2
  if t4.1 < 0 then t4 else
  let w3 := sensor_fp5529_actuator_wait_busy junk t4.2
  let t5 := ixc_write8 REG_ACC_MODE ((0x05 <<< 5) ||| 0x01) w3.2
  if t5.1 < 0 then t5 else
  let w4 := sensor_fp5529_actuator_wait_busy junk t5.2
  let t6 := ixc_write8 REG_LAD_EN 0x01 w4.2
  if t6.1 < 0 then t6 else
  let w5 := sensor_fp5529_actuator_wait_busy junk t6.2
  let t7 := ixc_read8 REG_VCM_MSB w5.2
  if t7.1 = none then (-5, t7.2) else
  let t8 := ixc_read8 REG_VCM_LSB t7.2
  if t8.1 = none then (-5, t8.2) else
  let p1 := t7.1.getD 0 &&& 0x03
  let position2 := (p1 <<< 8) ||| t8.1.getD 0
  if position2 > 0 then
    (HW_SOFTLANDING_FAIL, { t8.2 with dev := { t8.2.dev with position := position2 } })
  else (0, t8.2)

/-- Model of `sensor_fp5529_actuator_set_position`: validate the
caller-supplied target against the maximum, then (debug option)
substitute the fixed override, issue the packed position write and, only
after it succeeded, store the written value in the device record. -/
def sensor_fp5529_actuator_set_position (sa : SysfsActuator) (info : Nat) (s : Sim) :
    Int × Sim :=
  let position := info
  if position > FP5529_POS_MAX_SIZE then (-22, s)
  else
    let position2 := if sa.enable_fixed = true then sa.fixed_position else position
    let t := sensor_fp5529_write_position position2 s
    if t.1 < 0 then t
    else (t.1, { t.2 with dev := { t.2.dev with position := position2 } })

/-- Bus mock on which every read returns `0` and every write succeeds. -/
def allOkBus : BusOracle :=
  { readRes := fun _ => some 0, writeRes := fun _ => true }

/-- Bus mock whose n-th write fails and all other transactions
succeed. -/
def failAtBus (k : Nat) : BusOracle :=
  { readRes := fun _ => some 0, writeRes := fun n => !(n == k) }

/-- Bus mock on which every status read reports busy (low bit set). -/
def busyBus : BusOracle :=
  { readRes := fun _ => some 1, writeRes := fun _ => true }

/-- Bus mock for the busy-wait counterexample: the first read reports
busy, the second read fails at the bus level, every later read reports
not busy. -/
def staleReadBus : BusOracle :=
  { readRes := fun n => if n = 0 then some 1 else if n = 1 then none else some 0,
    writeRes := fun _ => true }

/-- Bus mock whose very first read fails and all later transactions
succeed with value `0`. -/
def firstReadFailBus : BusOracle :=
  { readRes := fun n => if n = 0 then none else some 0,
    writeRes := fun _ => true }

/-- Bus mock of the soft-landing scenario: the two initial position
reads return `0`, every status read returns `0` (not busy), and the two
final position reads (the 8th and 9th reads overall) return `h` and
`l`. -/
def slOracle (h l : Nat) : BusOracle :=
  { readRes := fun n => if n = 7 then some h else if n = 8 then some l else some 0,
    writeRes := fun _ => true }

/-- Sysfs state with no caller-supplied init list and no debug
override. -/
def saDefault : SysfsActuator :=
  { init_step := 0, init_positions := fun _ => 0, init_delays := fun _ => 0,
    enable_fixed := false, fixed_position := 0 }

/-- Sysfs state with the fixed-position debug override enabled at 50. -/
def saOverride : SysfsActuator :=
  { init_step := 0, init_positions := fun _ => 0, init_delays := fun _ => 0,
    enable_fixed := true, fixed_position := 50 }

/-- Sysfs state with a one-entry init list `[(100, 10 ms)]`; the array
slot one past the list holds `0`. -/
def saOneStep : SysfsActuator :=
  { init_step := 1, init_positions := fun i => if i = 0 then 100 else 0,
    init_delays := fun _ => 10, enable_fixed := false, fixed_position := 0 }

/-- The exact write/delay sequence `sensor_fp5529_init` issues when no
calibration data is present. -/
def initNoCalTrace : List Event :=
  [Event.write8 REG_CONTROL 0x01, Event.write8 REG_CONTROL 0x00,
   Event.sleepUs PWR_ON_DELAY, Event.write8 REG_CONTROL 0x02,
   Event.write8 REG_ACC_MODE 0x01, Event.write8 REG_ACC_TIME 0x36]

/-- The full event trace of a soft-landing run on which no bus
transaction fails and no status read ever reports busy. -/
def slTrace : List Event :=
  [Event.msleep 5, Event.read8 REG_STATUS,
   Event.read8 REG_VCM_MSB, Event.read8 REG_VCM_LSB,
   Event.write8 REG_PRESET 0,
   Event.msleep 5, Event.read8 REG_STATUS,
   Event.write8 REG_CONTROL 2,
   Event.msleep 5, Event.read8 REG_STATUS,
   Event.write8 REG_ACC_MODE 161,
   Event.msleep 5, Event.read8 REG_STATUS,
   Event.write8 REG_LAD_EN 1,
   Event.msleep 5, Event.read8 REG_STATUS,
   Event.read8 REG_VCM_MSB, Event.read8 REG_VCM_LSB]

/-- The simulation state after one successful status-register read:
one more read consumed, one read event appended. -/
def afterStatusRead (s : Sim) : Sim :=
  { s with nReads := s.nReads + 1, trace := s.trace ++ [Event.read8 REG_STATUS] }

theorem afterStatusRead_nReads (s : Sim) : (afterStatusRead s).nReads = s.nReads + 1 := rfl

theorem afterStatusRead_oracle (s : Sim) : (afterStatusRead s).oracle = s.oracle := rfl

theorem sim_msleep_nReads (ms : Nat) (s : Sim) : (sim_msleep ms s).nReads = s.nReads := rfl

theorem sim_msleep_oracle (ms : Nat) (s : Sim) : (sim_msleep ms s).oracle = s.oracle := rfl

theorem get_status_nReads (info : Nat) (s : Sim) :
    (sensor_fp5529_actuator_get_status info s).2.2.nReads = s.nReads + 1 := by
  cases h : s.oracle.readRes s.nReads <;>
    simp [sensor_fp5529_actuator_get_status, ixc_read8, h]

theorem get_status_oracle (info : Nat) (s : Sim) :
    (sensor_fp5529_actuator_get_status info s).2.2.oracle = s.oracle := by
  cases h : s.oracle.readRes s.nReads <;>
    simp [sensor_fp5529_actuator_get_status, ixc_read8, h]

theorem get_status_busy (info : Nat) (s : Sim) (v : Nat)
    (hv : s.oracle.readRes s.nReads = some v) (hb : v &&& 0x3 ≠ 0) :
    sensor_fp5529_actuator_get_status info s = (0, ACTUATOR_STATUS_BUSY, afterStatusRead s) := by
  simp [sensor_fp5529_actuator_get_status, ixc_read8, afterStatusRead, hv, hb]

theorem go_reads_le (r : Nat) :
    ∀ info (s : Sim), (wait_busy_go r info s).2.nReads ≤ s.nReads + r := by
  induction r with
  | zero => intro info s; simp [wait_busy_go]
  | succ n ih =>
    intro info s
    have h1 : (sensor_fp5529_actuator_get_status info s).2.2.nReads = s.nReads + 1 :=
      get_status_nReads info s
    simp only [wait_busy_go]
    split
    · refine le_trans (ih _ _) ?_
      split <;> simp only [sim_msleep_nReads, h1] <;> omega
    · split <;> simp only [sim_msleep_nReads, h1] <;> omega

theorem wait_busy_go_succ_busy (r info : Nat) (s : Sim) (v : Nat)
    (hv : s.oracle.readRes s.nReads = some v) (hb : v &&& 0x3 ≠ 0) :
    wait_busy_go (r + 1) info s =
      if 1 < r + 1 then
        wait_busy_go r ACTUATOR_STATUS_BUSY (sim_msleep 10 (afterStatusRead s))
      else
        (ACTUATOR_STATUS_BUSY, sim_msleep 10 (afterStatusRead s)) := by
  rw [wait_busy_go, get_status_busy info s v hv hb]
  simp

theorem go_all_busy (o : BusOracle)
    (H : ∀ n, ∃ v, o.readRes n = some v ∧ v &&& 0x3 ≠ 0) :
    ∀ (r info : Nat) (s : Sim), s.oracle = o →
      (wait_busy_go (r + 1) info s).1 = ACTUATOR_STATUS_BUSY ∧
      (wait_busy_go (r + 1) info s).2.nReads = s.nReads + (r + 1) ∧
      (wait_busy_go (r + 1) info s).2.oracle = o := by
  intro r
  induction r with
  | zero =>
    intro info s ho
    obtain ⟨v, hv, hb⟩ := H s.nReads
    have hv2 : s.oracle.readRes s.nReads = some v := by rw [ho]; exact hv
    rw [wait_busy_go_succ_busy 0 info s v hv2 hb, if_neg (by omega)]
    refine ⟨rfl, ?_, ?_⟩ <;>
      simp [sim_msleep_nReads, sim_msleep_oracle, afterStatusRead_nReads,
            afterStatusRead_oracle, ho]
  | succ n ih =>
    intro info s ho
    obtain ⟨v, hv, hb⟩ := H s.nReads
    have hv2 : s.oracle.readRes s.nReads = some v := by rw [ho]; exact hv
    rw [wait_busy_go_succ_busy (n + 1) info s v hv2 hb, if_pos (by omega)]
    have hs2 : (sim_msleep 10 (afterStatusRead s)).oracle = o := by
      simpa [sim_msleep_oracle, afterStatusRead_oracle] using ho
    have h3 := ih ACTUATOR_STATUS_BUSY _ hs2
    refine ⟨h3.1, ?_, h3.2.2⟩
    have h4 := h3.2.1
    simp only [sim_msleep_nReads, afterStatusRead_nReads] at h4
    rw [h4]
    omega

theorem get_status_read_zero (info : Nat) (s : Sim)
    (hv : s.oracle.readRes s.nReads = some 0) :
    sensor_fp5529_actuator_get_status info s =
      (0, ACTUATOR_STATUS_NO_BUSY, afterStatusRead s) := by
  simp [sensor_fp5529_actuator_get_status, ixc_read8, afterStatusRead, hv,
        ACTUATOR_STATUS_NO_BUSY]

theorem wait_busy_go_succ_not_busy (r info : Nat) (s : Sim)
    (hv : s.oracle.readRes s.nReads = some 0) :
    wait_busy_go (r + 1) info s = (ACTUATOR_STATUS_NO_BUSY, afterStatusRead s) := by
  rw [wait_busy_go, get_status_read_zero info s hv]
  simp [ACTUATOR_STATUS_NO_BUSY, ACTUATOR_STATUS_BUSY]

theorem wait_busy_read_zero (junk : Nat) (s : Sim)
    (hv : s.oracle.readRes s.nReads = some 0) :
    sensor_fp5529_actuator_wait_busy junk s = (0, afterStatusRead (sim_msleep 5 s)) := by
  have hv2 : (sim_msleep 5 s).oracle.readRes (sim_msleep 5 s).nReads = some 0 := by
    simpa [sim_msleep_oracle, sim_msleep_nReads] using hv
  simp only [sensor_fp5529_actuator_wait_busy]
  rw [show (15 : Nat) = 14 + 1 from rfl,
      wait_busy_go_succ_not_busy 14 junk (sim_msleep 5 s) hv2]

theorem sl_run (h l junk : Nat) :
    sensor_fp5529_actuator_soft_landing junk (mkSim (slOracle h l)) =
      if ((h &&& 0x03) <<< 8) ||| l > 0 then
        (HW_SOFTLANDING_FAIL,
         { oracle := slOracle h l, nReads := 9, nWrites := 4, trace := slTrace,
           dev := { position := ((h &&& 0x03) <<< 8) ||| l } })
      else
        (0, { oracle := slOracle h l, nReads := 9, nWrites := 4, trace := slTrace,
              dev := { position := 0 } }) := by
  unfold sensor_fp5529_actuator_soft_landing
  rw [wait_busy_read_zero junk _ rfl]
  dsimp only [ixc_read8, ixc_write8, afterStatusRead, sim_msleep, mkSim, slOracle,
    REG_STATUS, REG_VCM_MSB, REG_VCM_LSB, REG_PRESET, REG_CONTROL, REG_ACC_MODE,
    REG_LAD_EN, Nat.reduceAdd, dreduceIte]
  rw [wait_busy_read_zero junk _ rfl]
  dsimp only [ixc_read8, ixc_write8, afterStatusRead, sim_msleep, slOracle, Nat.reduceAdd,
    dreduceIte]
  rw [wait_busy_read_zero junk _ rfl]
  dsimp only [ixc_read8, ixc_write8, afterStatusRead, sim_msleep, slOracle, Nat.reduceAdd,
    dreduceIte]
  rw [wait_busy_read_zero junk _ rfl]
  dsimp only [ixc_read8, ixc_write8, afterStatusRead, sim_msleep, slOracle, Nat.reduceAdd,
    dreduceIte]
  rw [wait_busy_read_zero junk _ rfl]
  simp [ixc_read8, ixc_write8, afterStatusRead, sim_msleep, slOracle, slTrace,
    REG_STATUS, REG_VCM_MSB, REG_VCM_LSB, REG_PRESET, REG_CONTROL, REG_ACC_MODE,
    REG_LAD_EN]

theorem entriesValid_false_of_bad (sa : SysfsActuator) :
    ∀ n, (∃ i, i < n ∧ (sa.init_positions i < 0 ∨ sa.init_delays i < 0)) →
      entriesValid sa n = false := by
  intro n
  induction n with
  | zero => rintro ⟨i, hi, _⟩; omega
  | succ k ih =>
    rintro ⟨i, hi, hbad⟩
    by_cases hik : i < k
    · simp [entriesValid, ih ⟨i, hik, hbad⟩]
    · have hek : i = k := by omega
      subst hek
      rcases hbad with hp | hd
      · simp [entriesValid, Int.not_le.mpr hp]
      · simp [entriesValid, Int.not_le.mpr hd]

theorem valid_check_zero_of_bad (sa : SysfsActuator)
    (hbad : sa.init_step ≤ 0 ∨
      ∃ i, i < sa.init_step.toNat ∧ (sa.init_positions i < 0 ∨ sa.init_delays i < 0)) :
    sensor_fp5529_valid_check sa = 0 := by
  unfold sensor_fp5529_valid_check
  rcases hbad with h | h
  · rw [if_neg (by omega)]
  · by_cases h0 : 0 < sa.init_step
    · rw [if_pos h0, if_neg (by simp [entriesValid_false_of_bad sa _ h])]
    · rw [if_neg h0]

/-- C1: after the final soft-landing stage the two read-back position
bytes are combined as `position_final = ((high &&& 0x03) <<< 8) ||| low`;
`position_final = 0` yields the success return (`0`), and
`position_final > 0` yields `HW_SOFTLANDING_FAIL` (the `Failure{final_position}`
outcome) and stores the observed value in `actuator->position`. -/
theorem soft_landing_final_readback (h l junk : Nat) (hh : h < 256) (hl : l < 256) :
    (((h &&& 0x03) <<< 8) ||| l = 0 →
      (sensor_fp5529_actuator_soft_landing junk (mkSim (slOracle h l))).1 = 0) ∧
    (0 < ((h &&& 0x03) <<< 8) ||| l →
      (sensor_fp5529_actuator_soft_landing junk (mkSim (slOracle h l))).1
          = HW_SOFTLANDING_FAIL ∧
      (sensor_fp5529_actuator_soft_landing junk (mkSim (slOracle h l))).2.dev.position
          = ((h &&& 0x03) <<< 8) ||| l) := by
  constructor
  · intro hz
    rw [sl_run h l junk, if_neg (by omega)]
  · intro hp
    rw [sl_run h l junk, if_pos hp]
    exact ⟨rfl, rfl⟩

/-- Witness for C1 at the spec's example readback `(0x02, 0x10)`:
masked high = 2, low = 0x10, so the final position is 0x210 and the
outcome is the failure code with `actuator->position = 0x210`. -/
theorem soft_landing_final_readback_witness :
    (sensor_fp5529_actuator_soft_landing 0 (mkSim (slOracle 2 16))).1 = HW_SOFTLANDING_FAIL ∧
    (sensor_fp5529_actuator_soft_landing 0 (mkSim (slOracle 2 16))).2.dev.position = 0x210 := by
  have hc := soft_landing_final_readback 2 16 0 (by decide) (by decide)
  exact hc.2 (by decide)

/-- C2 (code bug): with the valid one-entry list `[(100, 10 ms)]` the
loop writes position 100 as requested, but the final store uses
`init_positions[init_step]` — the entry one past the end of the list
(here 0) — so `actuator->position` does not receive the last written
value 100. -/
theorem init_position_list_final_store :
    (sensor_fp5529_init_position saOneStep (mkSim allOkBus)).1 = 0 ∧
    (sensor_fp5529_init_position saOneStep (mkSim allOkBus)).2.trace
        = [Event.write16 REG_VCM_MSB 0 100, Event.msleep 10] ∧
    saOneStep.init_positions 0 = 100 ∧
    (sensor_fp5529_init_position saOneStep (mkSim allOkBus)).2.dev.position = 0 ∧
    (sensor_fp5529_init_position saOneStep (mkSim allOkBus)).2.dev.position ≠ 100 := by
  decide

/-- C3: a target beyond `FP5529_POS_MAX_SIZE` is rejected with `-EINVAL`
before any bus access: the returned state is exactly the input state, so
no bus write (and no trace event at all) is issued. -/
theorem write_position_rejects_out_of_range (val : Nat) (s : Sim)
    (hv : FP5529_POS_MAX_SIZE < val) :
    sensor_fp5529_write_position val s = (-22, s) := by
  unfold sensor_fp5529_write_position
  rw [if_pos hv]

/-- Witness for C3 at target 1024 (one above the 10-bit maximum). -/
theorem write_position_rejects_out_of_range_witness :
    sensor_fp5529_write_position 1024 (mkSim allOkBus) = (-22, mkSim allOkBus) :=
  write_position_rejects_out_of_range 1024 (mkSim allOkBus) (by decide)

/-- C4: with no calibration data the init sequence issues exactly
power-down-set, power-down-clear, the 5 ms settle delay, ring-enable
(bit 1 of control), acceleration-mode `0x01` and acceleration-time
`0x36`, in that order; and whichever write fails first aborts the
sequence right there with a negative return. -/
theorem init_no_cal_exact_sequence :
    ((sensor_fp5529_init none (mkSim allOkBus)).1 = 0 ∧
     (sensor_fp5529_init none (mkSim allOkBus)).2.trace = initNoCalTrace ∧
     (sensor_fp5529_init none (mkSim allOkBus)).2.nWrites = 5) ∧
    (∀ k, k < 5 →
      (sensor_fp5529_init none (mkSim (failAtBus k))).1 < 0 ∧
      (sensor_fp5529_init none (mkSim (failAtBus k))).2.trace
          = initNoCalTrace.take (if k ≤ 1 then k + 1 else k + 2)) := by
  decide

/-- C5: with calibration data present the acceleration-mode register
receives the byte value of `(control_mode <<< 5) ||| prescale` and the
acceleration-time register receives the calibration's `acctime`, inside
the same five-write sequence as the default path. -/
theorem init_cal_acc_packing (cal : CalData) (h1 : cal.control_mode < 256)
    (h2 : cal.prescale < 256) (h3 : cal.acctime < 256) :
    (sensor_fp5529_init (some cal) (mkSim allOkBus)).1 = 0 ∧
    (sensor_fp5529_init (some cal) (mkSim allOkBus)).2.trace =
      [Event.write8 REG_CONTROL 0x01, Event.write8 REG_CONTROL 0x00,
       Event.sleepUs PWR_ON_DELAY, Event.write8 REG_CONTROL 0x02,
       Event.write8 REG_ACC_MODE (((cal.control_mode <<< 5) ||| cal.prescale) % 256),
       Event.write8 REG_ACC_TIME cal.acctime] := by
  have e1 : cal.control_mode &&& 0xff = cal.control_mode := by
    have hx := Nat.and_pow_two_sub_one_eq_mod cal.control_mode 8
    simpa [Nat.mod_eq_of_lt h1] using hx
  have e2 : cal.prescale &&& 0xff = cal.prescale := by
    have hx := Nat.and_pow_two_sub_one_eq_mod cal.prescale 8
    simpa [Nat.mod_eq_of_lt h2] using hx
  refine ⟨rfl, ?_⟩
  simp [sensor_fp5529_init, ixc_write8, sim_usleep, allOkBus, mkSim, e1, e2,
        Nat.mod_eq_of_lt h3]

/-- Witness for C5 at the spec's example calibration
`{control_mode = 0x2, prescale = 0x3, acctime = 0x10}`: the
acceleration-mode register receives `0x43` and the acceleration-time
register receives `0x10`. -/
theorem init_cal_acc_packing_witness :
    (sensor_fp5529_init (some ⟨0x2, 0x3, 0x10⟩) (mkSim allOkBus)).2.trace =
      [Event.write8 REG_CONTROL 0x01, Event.write8 REG_CONTROL 0x00,
       Event.sleepUs PWR_ON_DELAY, Event.write8 REG_CONTROL 0x02,
       Event.write8 REG_ACC_MODE 0x43, Event.write8 REG_ACC_TIME 0x10] :=
  (init_cal_acc_packing ⟨0x2, 0x3, 0x10⟩ (by decide) (by decide) (by decide)).2

/-- C6 counterexample: on a bus whose status reads always report busy,
the wait loop's last observed status is Busy, yet the function returns
`0` — a constant success code, not the observed `BusyStatus` (whose
busy value is distinct from 0). -/
theorem wait_busy_returns_zero_cex :
    (sensor_fp5529_actuator_wait_busy 0 (mkSim busyBus)).1 = 0 ∧
    (wait_busy_go 15 0 (sim_msleep 5 (mkSim busyBus))).1 = ACTUATOR_STATUS_BUSY ∧
    ((0 : Int) ≠ (ACTUATOR_STATUS_BUSY : Nat)) := by
  decide

/-- C6 (amended): the busy wait always returns `0` and performs at most
15 status polls; when every status read reports busy it performs exactly
15 polls and the last observed status is Busy, but that status is
discarded — the function still returns `0`. -/
theorem wait_busy_bounded_poll (junk : Nat) (s : Sim) :
    (sensor_fp5529_actuator_wait_busy junk s).1 = 0 ∧
    (sensor_fp5529_actuator_wait_busy junk s).2.nReads ≤ s.nReads + 15 ∧
    ((∀ n, ∃ v, s.oracle.readRes n = some v ∧ v &&& 0x3 ≠ 0) →
      (sensor_fp5529_actuator_wait_busy junk s).2.nReads = s.nReads + 15 ∧
      (wait_busy_go 15 junk (sim_msleep 5 s)).1 = ACTUATOR_STATUS_BUSY) := by
  refine ⟨rfl, ?_, ?_⟩
  · have hb := go_reads_le 15 junk (sim_msleep 5 s)
    simpa [sensor_fp5529_actuator_wait_busy, sim_msleep_nReads] using hb
  · intro H
    have hg := go_all_busy s.oracle H 14 junk (sim_msleep 5 s) (sim_msleep_oracle 5 s)
    refine ⟨?_, hg.1⟩
    have h2 := hg.2.1
    simp only [sim_msleep_nReads] at h2
    simpa [sensor_fp5529_actuator_wait_busy] using h2

/-- Witness for C6 on the always-busy bus mock. -/
theorem wait_busy_bounded_poll_witness :
    (sensor_fp5529_actuator_wait_busy 0 (mkSim busyBus)).2.nReads = (mkSim busyBus).nReads + 15 ∧
    (wait_busy_go 15 0 (sim_msleep 5 (mkSim busyBus))).1 = ACTUATOR_STATUS_BUSY :=
  (wait_busy_bounded_poll 0 (mkSim busyBus)).2.2 (fun _ => ⟨1, rfl, by decide⟩)

/-- C7 counterexample: on `staleReadBus` the first status read reports
busy and the second read fails at the bus level; the loop does not treat
the failed read as not-busy — the status variable keeps its previous
Busy value, the loop sleeps again and polls a third time (three status
reads and two 10 ms backoffs in the trace, where terminating at the
failed read would have given two reads and one backoff). -/
theorem wait_busy_failed_read_stays_busy_cex :
    staleReadBus.readRes 1 = none ∧
    (sensor_fp5529_actuator_get_status ACTUATOR_STATUS_BUSY
        { mkSim staleReadBus with nReads := 1 }).2.1 = ACTUATOR_STATUS_BUSY ∧
    (sensor_fp5529_actuator_wait_busy 0 (mkSim staleReadBus)).2.nReads = 3 ∧
    (sensor_fp5529_actuator_wait_busy 0 (mkSim staleReadBus)).2.trace
        = [Event.msleep 5, Event.read8 REG_STATUS, Event.msleep 10, Event.read8 REG_STATUS,
           Event.msleep 10, Event.read8 REG_STATUS] := by
  decide

/-- C7 (amended): the busy wait itself never returns an error (always
`0`); a status read that fails at the bus level makes `get_status`
return a negative code and leave the polled status variable unchanged,
so the loop continues with whatever status it last observed (on the
first iteration, the indeterminate initial value) rather than assuming
not-busy. -/
theorem wait_busy_no_error_stale_info (junk : Nat) (s : Sim) :
    (sensor_fp5529_actuator_wait_busy junk s).1 = 0 ∧
    (∀ info, s.oracle.readRes s.nReads = none →
      (sensor_fp5529_actuator_get_status info s).1 < 0 ∧
      (sensor_fp5529_actuator_get_status info s).2.1 = info) := by
  refine ⟨rfl, ?_⟩
  intro info hf
  constructor <;> simp [sensor_fp5529_actuator_get_status, ixc_read8, hf]

/-- Witness for C7 on a bus whose first read fails. -/
theorem wait_busy_no_error_stale_info_witness :
    (sensor_fp5529_actuator_wait_busy 0 (mkSim firstReadFailBus)).1 = 0 ∧
    (sensor_fp5529_actuator_get_status 1 (mkSim firstReadFailBus)).1 < 0 ∧
    (sensor_fp5529_actuator_get_status 1 (mkSim firstReadFailBus)).2.1 = 1 :=
  ⟨(wait_busy_no_error_stale_info 0 (mkSim firstReadFailBus)).1,
   (wait_busy_no_error_stale_info 0 (mkSim firstReadFailBus)).2 1 rfl⟩

/-- C8 counterexample: with the fixed override enabled at the in-range
value 50, a call with the out-of-range caller target 2000 is rejected
with `-EINVAL` and no bus write — the range validation ran on the
caller-supplied target, not on the substituted override (which would
have passed). -/
theorem set_position_override_cex :
    saOverride.enable_fixed = true ∧
    saOverride.fixed_position ≤ FP5529_POS_MAX_SIZE ∧
    FP5529_POS_MAX_SIZE < 2000 ∧
    (sensor_fp5529_actuator_set_position saOverride 2000 (mkSim allOkBus)).1 = -22 ∧
    (sensor_fp5529_actuator_set_position saOverride 2000 (mkSim allOkBus)).2.trace = [] := by
  decide

/-- C8 (amended): the fixed override is substituted only after the
caller-supplied target passes the `set_position`-level range check; the
packed bus write (with `write_position`'s own range check) then operates
on the override value, and on success the override value is stored in
`actuator->position`. -/
theorem set_position_override_after_validation (sa : SysfsActuator) (info : Nat)
    (o : BusOracle) (hf : sa.enable_fixed = true) (hi : info ≤ FP5529_POS_MAX_SIZE)
    (hov : sa.fixed_position ≤ FP5529_POS_MAX_SIZE) (hw : o.writeRes 0 = true) :
    sensor_fp5529_actuator_set_position sa info (mkSim o) =
      (0, { oracle := o, nReads := 0, nWrites := 1,
            trace := [Event.write16 REG_VCM_MSB ((sa.fixed_position &&& 0x300) >>> 8)
                        (sa.fixed_position &&& 0xFF)],
            dev := { position := sa.fixed_position } }) := by
  simp [sensor_fp5529_actuator_set_position, sensor_fp5529_write_position, ixc_write16,
        mkSim, hf, hw, Nat.not_lt.mpr hi, Nat.not_lt.mpr hov]

/-- Witness for C8: override 50 enabled, caller target 500; the write
carries the packed override bytes and the stored position is 50. -/
theorem set_position_override_after_validation_witness :
    sensor_fp5529_actuator_set_position saOverride 500 (mkSim allOkBus) =
      (0, { oracle := allOkBus, nReads := 0, nWrites := 1,
            trace := [Event.write16 REG_VCM_MSB 0 50],
            dev := { position := 50 } }) :=
  set_position_override_after_validation saOverride 500 allOkBus rfl (by decide)
    (by decide) rfl

/-- C9: whenever the caller-supplied init list is absent or empty
(`init_step ≤ 0`) or contains a negative position or delay, and the two
bus writes succeed, `init_position` performs exactly the fixed default
sequence — write 100, sleep 20 ms, write 180, sleep 10 ms — and leaves
`actuator->position = 180`. -/
theorem init_position_fallback_default (sa : SysfsActuator) (o : BusOracle)
    (hbad : sa.init_step ≤ 0 ∨
      ∃ i, i < sa.init_step.toNat ∧ (sa.init_positions i < 0 ∨ sa.init_delays i < 0))
    (hw0 : o.writeRes 0 = true) (hw1 : o.writeRes 1 = true) :
    (sensor_fp5529_init_position sa (mkSim o)).1 = 0 ∧
    (sensor_fp5529_init_position sa (mkSim o)).2.trace
        = [Event.write16 REG_VCM_MSB 0 100, Event.msleep 20,
           Event.write16 REG_VCM_MSB 0 180, Event.msleep 10] ∧
    (sensor_fp5529_init_position sa (mkSim o)).2.dev.position = 180 := by
  have hvc := valid_check_zero_of_bad sa hbad
  have e1 : ((100 : Nat) &&& 0x300) >>> 8 = 0 := by decide
  have e2 : ((100 : Nat) &&& 0xFF) = 100 := by decide
  have e3 : ((180 : Nat) &&& 0x300) >>> 8 = 0 := by decide
  have e4 : ((180 : Nat) &&& 0xFF) = 180 := by decide
  refine ⟨?_, ?_, ?_⟩ <;>
    simp [sensor_fp5529_init_position, sensor_fp5529_write_position, ixc_write16,
          sim_msleep, mkSim, hvc, hw0, hw1, e1, e2, e3, e4,
          DEF_FP5529_FIRST_POSITION, DEF_FP5529_SECOND_POSITION,
          DEF_FP5529_FIRST_DELAY, DEF_FP5529_SECOND_DELAY, FP5529_POS_MAX_SIZE]

/-- Witness for C9 with no caller list at all (`init_step = 0`) on the
all-success bus. -/
theorem init_position_fallback_default_witness :
    (sensor_fp5529_init_position saDefault (mkSim allOkBus)).1 = 0 ∧
    (sensor_fp5529_init_position saDefault (mkSim allOkBus)).2.trace
        = [Event.write16 REG_VCM_MSB 0 100, Event.msleep 20,
           Event.write16 REG_VCM_MSB 0 180, Event.msleep 10] ∧
    (sensor_fp5529_init_position saDefault (mkSim allOkBus)).2.dev.position = 180 :=
  init_position_fallback_default saDefault allOkBus (Or.inl (by decide)) rfl rfl

/-- C10: `set_position` stores into `actuator->position` only after the
packed position write returned success; a range rejection or a failed
bus write leaves the device record untouched, and on success the stored
value is the effective (possibly overridden) target. -/
theorem set_position_updates_only_on_success (sa : SysfsActuator) (info : Nat) (s : Sim) :
    ((sensor_fp5529_actuator_set_position sa info s).1 < 0 →
      (sensor_fp5529_actuator_set_position sa info s).2.dev = s.dev) ∧
    (0 ≤ (sensor_fp5529_actuator_set_position sa info s).1 →
      (sensor_fp5529_actuator_set_position sa info s).2.dev.position
        = (if sa.enable_fixed = true then sa.fixed_position else info)) := by
  simp only [sensor_fp5529_actuator_set_position, sensor_fp5529_write_position, ixc_write16]
  split_ifs <;> simp_all

/-- Witness for C10: an out-of-range target leaves the device record
unchanged. -/
theorem set_position_updates_only_on_success_witness :
    (sensor_fp5529_actuator_set_position saDefault 2000 (mkSim allOkBus)).2.dev
      = (mkSim allOkBus).dev :=
  (set_position_updates_only_on_success saDefault 2000 (mkSim allOkBus)).1 (by decide)
